import Mathlib

/-!
Verification of the my-notes Docusaurus site: a shallow embedding of the
sidebar taxonomy (sidebars.ts), the site configuration
(docusaurus.config.ts) and the landing-page component
(src/pages/index.tsx), with theorems settling the specification's claims
about them.
-/

/-! ## Sidebar taxonomy (sidebars.ts) -/

/-- A node of the sidebar taxonomy: either a document-identifier string or
a category object carrying a label and an ordered list of child items,
mirroring the two shapes that occur in sidebars.ts. -/
inductive SidebarItem where
  | doc (id : String)
  | category (label : String) (items : List SidebarItem)

mutual
/-- Decidable equality on sidebar items (the derive handler does not
support this nested inductive, so it is written out). -/
def decEqSidebarItem : (a b : SidebarItem) → Decidable (a = b)
  | .doc x, .doc y =>
      if hxy : x = y then .isTrue (by rw [hxy])
      else .isFalse (by simp [hxy])
  | .doc _, .category _ _ => .isFalse (by simp)
  | .category _ _, .doc _ => .isFalse (by simp)
  | .category l₁ i₁, .category l₂ i₂ =>
      if hl : l₁ = l₂ then
        match decEqSidebarItems i₁ i₂ with
        | .isTrue hi => .isTrue (by rw [hl, hi])
        | .isFalse hi => .isFalse (by simp [hi])
      else .isFalse (by simp [hl])

/-- Decidable equality on lists of sidebar items. -/
def decEqSidebarItems : (a b : List SidebarItem) → Decidable (a = b)
  | [], [] => .isTrue rfl
  | [], _ :: _ => .isFalse (by simp)
  | _ :: _, [] => .isFalse (by simp)
  | x :: xs, y :: ys =>
      match decEqSidebarItem x y with
      | .isTrue hxy =>
          match decEqSidebarItems xs ys with
          | .isTrue hrest => .isTrue (by rw [hxy, hrest])
          | .isFalse hrest => .isFalse (by simp [hrest])
      | .isFalse hxy => .isFalse (by simp [hxy])
end

instance : DecidableEq SidebarItem := decEqSidebarItem

/-- The notesSidebar taxonomy, transcribed item for item from the value of
the key notesSidebar in sidebars.ts. -/
def notesSidebar : List SidebarItem :=
  [ .category "Frontend"
      [ .doc "frontend/typescript",
        .doc "frontend/react",
        .doc "frontend/nextjs",
        .doc "frontend/angularjs" ],
    .category "Backend"
      [ .doc "backend/nodejs",
        .doc "backend/expressjs",
        .doc "backend/postgresql",
        .doc "backend/api-platform",
        .category "Symfony"
          [ .doc "symfony/introduction",
            .doc "symfony/installation",
            .doc "symfony/project-workflow",
            .doc "symfony/mvc",
            .doc "symfony/model",
            .doc "symfony/view",
            .doc "symfony/controller",
            .doc "symfony/form",
            .doc "symfony/services",
            .doc "symfony/security" ] ],
    .category "Testing"
      [ .doc "test/test-types",
        .doc "test/test-frontend",
        .doc "test/test-backend" ],
    .category "Github"
      [ .doc "github/work-in-group",
        .doc "github/useful-commands" ],
    .category "Projects"
      [ .doc "projects/task-manager",
        .doc "projects/cv-ai-assistant" ],
    .category "Internship"
      [ .doc "internship/internship-stack" ] ]

/-- The object exported from sidebars.ts: a map from sidebar keys to
taxonomies, holding the single key notesSidebar. -/
def sidebars : List (String × List SidebarItem) :=
  [("notesSidebar", notesSidebar)]

mutual
/-- Document identifiers appearing in a sidebar item (the item itself when
it is a document, the identifiers inside its items list when it is a
category). -/
def docIdsOf : SidebarItem → List String
  | .doc id => [id]
  | .category _ its => docIdsList its

/-- Document identifiers appearing in a list of sidebar items, in order. -/
def docIdsList : List SidebarItem → List String
  | [] => []
  | i :: is => docIdsOf i ++ docIdsList is
end

mutual
/-- Proper descendants of a sidebar item: its children and, recursively,
their descendants; a document node has none. -/
def descendantsOf : SidebarItem → List SidebarItem
  | .doc _ => []
  | .category _ its => its ++ descendantsList its

/-- Proper descendants of every item in a list, concatenated. -/
def descendantsList : List SidebarItem → List SidebarItem
  | [] => []
  | i :: is => descendantsOf i ++ descendantsList is
end

mutual
/-- Category-nesting depth of a sidebar item: 0 for a document, one more
than the deepest child for a category. -/
def catDepthOf : SidebarItem → Nat
  | .doc _ => 0
  | .category _ its => 1 + catDepthList its

/-- Greatest category-nesting depth among the items of a list. -/
def catDepthList : List SidebarItem → Nat
  | [] => 0
  | i :: is => max (catDepthOf i) (catDepthList is)
end

/-- Whether a sidebar item is a document-identifier string. -/
def isDocItem : SidebarItem → Bool
  | .doc _ => true
  | .category _ _ => false

/-- Whether a sidebar item is a category object with a label and an items
list. -/
def isCategoryItem : SidebarItem → Bool
  | .doc _ => false
  | .category _ _ => true

/-! ## Content files of the docs tree -/

/-- Document identifiers of the markdown content files visible in the
repository: the named files under docs/ together with the markdown
documents shipped without a recorded path, identified by their top-level
headings (PostgreSQL, the Symfony introduction, installation-workflow,
view and services pages, and the two Github guides). -/
def docsTreeListed : List String :=
  [ "frontend/typescript",
    "frontend/react",
    "frontend/nextjs",
    "frontend/angularjs",
    "backend/expressjs",
    "backend/postgresql",
    "backend/api-platform",
    "symfony/introduction",
    "symfony/project-workflow",
    "symfony/mvc",
    "symfony/model",
    "symfony/view",
    "symfony/controller",
    "symfony/form",
    "symfony/services",
    "symfony/security",
    "test/test-types",
    "github/work-in-group",
    "github/useful-commands",
    "internship/internship-stack" ]

/-- Modelled from the spec: the content files for these identifiers are
part of the repository's docs tree but are not among the shipped sources;
the spec's invariant that every document identifier referenced in the
sidebar taxonomy resolves to an existing content file (the build completes
without broken-link errors under onBrokenLinks throw) says they exist. -/
def docsTreeModelled : List String :=
  [ "backend/nodejs",
    "symfony/installation",
    "test/test-frontend",
    "test/test-backend",
    "projects/task-manager",
    "projects/cv-ai-assistant" ]

/-- All document identifiers with a content file in the docs tree. -/
def docsTree : List String :=
  docsTreeListed ++ docsTreeModelled

/-! ## Site configuration (docusaurus.config.ts) -/

/-- The i18n block of the configuration. -/
structure I18nConfig where
  defaultLocale : String
  locales : List String
deriving DecidableEq

/-- The themeConfig.colorMode block. -/
structure ColorModeConfig where
  defaultMode : String
  respectPrefersColorScheme : Bool
deriving DecidableEq

/-- The navbar logo object. -/
structure NavbarLogo where
  alt : String
  src : String
  className : String
deriving DecidableEq

/-- A navbar item: either the docSidebar item (type docSidebar with a
sidebarId, position and label) or an external href item. -/
inductive NavbarItem where
  | docSidebarRef (sidebarId : String) (position : String) (label : String)
  | hrefRef (href : String) (label : String) (position : String)
deriving DecidableEq

/-- The themeConfig.navbar block. -/
structure NavbarConfig where
  title : String
  logo : NavbarLogo
  items : List NavbarItem
deriving DecidableEq

/-- The themeConfig.footer block. -/
structure FooterConfig where
  style : String
  copyright : String
deriving DecidableEq

/-- The themeConfig.prism block (theme values stand for the
prism-react-renderer theme objects they name). -/
structure PrismConfig where
  theme : String
  darkTheme : String
deriving DecidableEq

/-- The whole themeConfig block. -/
structure ThemeConfig where
  image : String
  colorMode : ColorModeConfig
  navbar : NavbarConfig
  footer : FooterConfig
  prism : PrismConfig
deriving DecidableEq

/-- The docs options of the classic preset. -/
structure DocsOptions where
  sidebarPath : String
  editUrl : String
deriving DecidableEq

/-- The theme options of the classic preset. -/
structure ThemeOptions where
  customCss : String
deriving DecidableEq

/-- The options object of a preset entry. -/
structure PresetOptions where
  docs : DocsOptions
  theme : ThemeOptions
deriving DecidableEq

/-- The configuration object type: the fields assigned in
docusaurus.config.ts. -/
structure SiteConfig where
  title : String
  tagline : String
  favicon : String
  url : String
  baseUrl : String
  organizationName : String
  projectName : String
  onBrokenLinks : String
  onBrokenMarkdownLinks : String
  i18n : I18nConfig
  presets : List (String × PresetOptions)
  themeConfig : ThemeConfig
deriving DecidableEq

/-- The options passed with the classic preset: sidebarPath and customCss
stand for the paths require.resolve is called on. -/
def classicPresetOptions : PresetOptions :=
  { docs :=
      { sidebarPath := "./sidebars.ts",
        editUrl := "https://github.com/HnHoussi/my-notes/edit/main/" },
    theme := { customCss := "./src/css/custom.css" } }

/-- The configuration object built by evaluating docusaurus.config.ts.
The evaluation reads the clock once, in the footer copyright template
string (new Date().getFullYear()); the year obtained there is the
parameter, every other field is a literal. -/
def config (year : Nat) : SiteConfig :=
  { title := "My Notes",
    tagline := "Cheatsheets and study notes",
    favicon := "img/favicon.ico",
    url := "https://HnHoussi.github.io",
    baseUrl := "/",
    organizationName := "HnHoussi",
    projectName := "my-notes",
    onBrokenLinks := "throw",
    onBrokenMarkdownLinks := "warn",
    i18n := { defaultLocale := "en", locales := ["en"] },
    presets := [("classic", classicPresetOptions)],
    themeConfig :=
      { image := "img/docusaurus-social-card.jpg",
        colorMode :=
          { defaultMode := "dark", respectPrefersColorScheme := false },
        navbar :=
          { title := "Home",
            logo :=
              { alt := "My Notes Logo",
                src := "img/HXH.png",
                className := "custom-logo" },
            items :=
              [ .docSidebarRef "notesSidebar" "left" "Notes",
                .hrefRef "https://github.com/HnHoussi/my-notes" "GitHub"
                  "right" ] },
        footer :=
          { style := "dark",
            copyright :=
              "Made with Love © " ++ toString year ++ " HN Notes" },
        prism := { theme := "github", darkTheme := "dracula" } } }

/-- The configuration with the footer copyright blanked out: the part of
the configuration that does not come from the clock. -/
def eraseCopyright (c : SiteConfig) : SiteConfig :=
  { c with
      themeConfig :=
        { c.themeConfig with
            footer := { c.themeConfig.footer with copyright := "" } } }

/-- The sidebar keys referenced by docSidebar items of a navbar. -/
def navbarSidebarIds (n : NavbarConfig) : List String :=
  n.items.filterMap fun i =>
    match i with
    | .docSidebarRef sid _ _ => some sid
    | .hrefRef _ _ _ => none

/-- Modelled from the spec: the framework's resolution of a visitor's
initial color mode, which is not code of this repository; per the spec,
respectPrefersColorScheme false disables system mode, so the
operating-system preference is honored only when that flag is true,
otherwise defaultMode applies. -/
def initialColorMode (cm : ColorModeConfig) (osPreference : String) :
    String :=
  if cm.respectPrefersColorScheme then osPreference else cm.defaultMode

/-! ## Landing-page component (src/pages/index.tsx) -/

/-- A rendered element tree: a text node, or an element with a tag name,
an attribute list and ordered children, enough to embed the JSX the
landing page returns. -/
inductive Element where
  | text (s : String)
  | el (tag : String) (attrs : List (String × String))
      (children : List Element)

/-- Ambient inputs a page render could observe: the clock and the
operating-system color-scheme preference. The landing-page component
reads none of them. -/
structure RenderEnv where
  now : Nat
  osColorScheme : String

/-- The Home component of src/pages/index.tsx, transcribed node for node:
it takes no props and returns the same fixed tree on every invocation.
Class names stand for the CSS-module keys the source interpolates. -/
def Home (_env : RenderEnv) : Element :=
  .el "Layout"
    [("title", "Home"),
     ("description", "Programming Cheatsheets and Project Guides")]
    [ .el "main" [("className", "main")]
        [ .el "section" [("className", "hero")]
            [ .el "h1" [("className", "title")]
                [.text "Web Dev Cheatsheets"],
              .el "p" [("className", "subtitle")]
                [.text
                  "Frontend, Backend, and Project Guides for web development"],
              .el "Link"
                [("className", "cta"), ("to", "/docs/frontend/react")]
                [.text "Start Learning"] ],
          .el "section" [("className", "cards")]
            [ .el "Link"
                [("className", "card frontend"),
                 ("to", "/docs/frontend/react")]
                [ .el "FaReact" [("size", "40")] [],
                  .el "h2" [] [.text "Frontend"],
                  .el "p" []
                    [.text "React, Next.js, TypeScript and many more ..."] ],
              .el "Link"
                [("className", "card backend"),
                 ("to", "/docs/backend/nodejs")]
                [ .el "FaServer" [("size", "40")] [],
                  .el "h2" [] [.text "Backend"],
                  .el "p" []
                    [.text
                      "Node.js, ExpressJS, PostgreSQL, Symfony, API Platform ..."] ],
              .el "Link"
                [("className", "card tests"),
                 ("to", "/docs/test/test-types")]
                [ .el "FaCheck" [("size", "40")] [],
                  .el "h2" [] [.text "Testing"],
                  .el "p" [] [.text "A comprehensive testing cheat sheet"] ],
              .el "Link"
                [("className", "card projects"),
                 ("to", "/docs/projects/cv-ai-assistant")]
                [ .el "FaProjectDiagram" [("size", "40")] [],
                  .el "h2" [] [.text "Projects"],
                  .el "p" [] [.text "Step-by-step project guides"] ] ] ] ]

mutual
/-- Route targets of the Link elements of an element tree: the values of
to attributes on Link tags, in document order. -/
def linkTargetsOf : Element → List String
  | .text _ => []
  | .el tag attrs children =>
      (if tag == "Link" then
        attrs.filterMap fun p => if p.fst == "to" then some p.snd else none
      else []) ++ linkTargetsList children

/-- Route targets of the Link elements of a list of trees. -/
def linkTargetsList : List Element → List String
  | [] => []
  | e :: es => linkTargetsOf e ++ linkTargetsList es
end

/-! ## Build-time operations touching the sidebars export -/

/-- The operations the repository's own code contributes to a site build:
evaluating the configuration module (reading the clock for the copyright
year), rendering the landing page, and the framework reading the sidebars
module's export via sidebarPath. -/
inductive SiteOp where
  | evalConfigModule (year : Nat)
  | renderHomePage (env : RenderEnv)
  | frameworkReadSidebars

/-- What an operation yields. -/
inductive SiteObs where
  | configValue (c : SiteConfig)
  | pageValue (e : Element)
  | sidebarsValue (s : List (String × List SidebarItem))

/-- One build-time operation, applied to the current value of the sidebars
export: its observable result, paired with the export afterwards. Each
branch is read from the source: the config module builds the config
object, the page render builds the element tree, the framework read
returns the export; no statement in the repository writes to it. -/
def runOp (s : List (String × List SidebarItem)) :
    SiteOp → SiteObs × List (String × List SidebarItem)
  | .evalConfigModule y => (.configValue (config y), s)
  | .renderHomePage env => (.pageValue (Home env), s)
  | .frameworkReadSidebars => (.sidebarsValue s, s)

/-- The sidebars export after a sequence of build-time operations. -/
def runOps (s : List (String × List SidebarItem)) :
    List SiteOp → List (String × List SidebarItem)
  | [] => s
  | op :: ops => runOps (runOp s op).2 ops

/-! ## Helper lemmas -/

/-- Any single build-time operation leaves the sidebars export unchanged. -/
theorem runOp_snd (s : List (String × List SidebarItem)) (op : SiteOp) :
    (runOp s op).2 = s := by
  cases op <;> rfl

/-- Any sequence of build-time operations leaves an export value
unchanged. -/
theorem runOps_id (s : List (String × List SidebarItem)) :
    ∀ ops : List SiteOp, runOps s ops = s
  | [] => rfl
  | op :: ops => by rw [runOps, runOp_snd]; exact runOps_id s ops

/-! ## Claims -/

/-- C1: every document identifier appearing in an items array of the
notesSidebar taxonomy has a content file in the repository's docs tree. -/
theorem sidebar_ids_resolve_to_content_files :
    ((docIdsList notesSidebar).all fun id => docsTree.contains id) = true := by
  decide

/-- C2 counterexample: the configuration module is not independent of the
evaluation date; evaluated in years 2025 and 2026 it yields different
objects, the footer copyright embedding the year. -/
theorem config_differs_across_years : config 2025 ≠ config 2026 := by
  decide

/-- C2 amended: any two evaluations of the configuration module agree on
every field except the footer copyright string, which embeds the year read
from the clock at evaluation time. -/
theorem config_static_except_copyright_year :
    ∀ y₁ y₂ : Nat,
      eraseCopyright (config y₁) = eraseCopyright (config y₂) ∧
      (config y₁).themeConfig.footer.copyright =
        "Made with Love © " ++ toString y₁ ++ " HN Notes" :=
  fun _ _ => ⟨rfl, rfl⟩

/-- C3: the configuration sets onBrokenLinks to throw and
onBrokenMarkdownLinks to warn, the flags the framework reads to fail a
build on broken internal links but merely warn on broken markdown links. -/
theorem broken_link_flags :
    ∀ year : Nat,
      (config year).onBrokenLinks = "throw" ∧
      (config year).onBrokenMarkdownLinks = "warn" :=
  fun _ => ⟨rfl, rfl⟩

/-- C4: the notesSidebar taxonomy is a finite tree in which every node is
a document identifier or a labelled category with an ordered items list,
no node occurs among its own descendants, and the category nesting depth
is exactly two (the Symfony subcategory inside Backend). -/
theorem notesSidebar_simple_tree :
    ((notesSidebar ++ descendantsList notesSidebar).all fun s =>
        (isDocItem s || isCategoryItem s) &&
          !((descendantsOf s).contains s)) = true ∧
      catDepthList notesSidebar = 2 :=
  ⟨by decide, by decide⟩

/-- C5: the configuration carries every recognized interface field the
spec enumerates, with defaultLocale a member of the locales list, and the
docs preset referencing the sidebar definition file. -/
theorem config_interface_fields :
    ∀ year : Nat,
      (config year).title = "My Notes" ∧
      (config year).tagline = "Cheatsheets and study notes" ∧
      (config year).url = "https://HnHoussi.github.io" ∧
      (config year).i18n.defaultLocale = "en" ∧
      (config year).i18n.locales = ["en"] ∧
      (config year).i18n.defaultLocale ∈ (config year).i18n.locales ∧
      (config year).themeConfig.colorMode =
        { defaultMode := "dark", respectPrefersColorScheme := false } ∧
      (config year).themeConfig.navbar.title = "Home" ∧
      (config year).themeConfig.footer.style = "dark" ∧
      (config year).presets = [("classic", classicPresetOptions)] ∧
      classicPresetOptions.docs.sidebarPath = "./sidebars.ts" :=
  fun _ =>
    ⟨rfl, rfl, rfl, rfl, rfl, List.mem_cons_self _ _, rfl, rfl, rfl, rfl,
      rfl⟩

/-- C6: the Home component is stateless and presentational; it reads
nothing from the ambient environment, so any two invocations return the
identical element tree. -/
theorem Home_deterministic :
    ∀ e₁ e₂ : RenderEnv, Home e₁ = Home e₂ :=
  fun _ _ => rfl

/-- C7: the sidebars export is never mutated; after any sequence of the
build-time operations the repository's code contributes, its value equals
the value sidebars.ts defines. -/
theorem sidebars_only_read :
    ∀ ops : List SiteOp, runOps sidebars ops = sidebars :=
  fun ops => runOps_id sidebars ops

/-- C8: the navbar docSidebar item names sidebarId notesSidebar, and that
string is exactly the unique key of the object sidebars.ts exports. -/
theorem navbar_sidebarId_matches_export :
    ∀ year : Nat,
      navbarSidebarIds (config year).themeConfig.navbar =
        ["notesSidebar"] ∧
      sidebars.map Prod.fst = ["notesSidebar"] :=
  fun _ => ⟨rfl, rfl⟩

/-- C9: every route targeted by a Link on the landing page is /docs/
followed by a document identifier listed in the notesSidebar taxonomy. -/
theorem home_links_target_sidebar_docs :
    ∀ env : RenderEnv,
      ((linkTargetsOf (Home env)).all fun t =>
        (docIdsList notesSidebar).any fun id => t == "/docs/" ++ id) =
        true :=
  fun _ => rfl

/-- C10: the color-mode configuration sets defaultMode dark and
respectPrefersColorScheme false, so the initial color mode resolves to
dark whatever the visitor's operating-system preference. -/
theorem color_mode_dark_for_every_visitor :
    ∀ (year : Nat) (osPreference : String),
      (config year).themeConfig.colorMode.defaultMode = "dark" ∧
      (config year).themeConfig.colorMode.respectPrefersColorScheme =
        false ∧
      initialColorMode (config year).themeConfig.colorMode osPreference =
        "dark" :=
  fun _ _ => ⟨rfl, rfl, rfl⟩
